import Mathlib

/-!
Shallow embedding of the Tag Identity & Provisioning Lifecycle subsystem of
the Klangkiste device-management console (NFC tag provisioning front end).

Each definition mirrors one function or effect of the source file
`src/unnamed/part_001`; theorems settle the specification claims about them.
-/

namespace Klangkiste

/-- JS truthy string fallback `a || b`: the empty string is falsy. -/
def jsOr (a b : String) : String := if a = "" then b else a

/-- JS `String.prototype.trim()`: strip whitespace from both ends. -/
def jsTrim (s : String) : String :=
  String.mk (((s.data.dropWhile Char.isWhitespace).reverse.dropWhile
    Char.isWhitespace).reverse)

/-! ## Identity Validator (source lines 177-198) -/

/-- One character of the regex class `[a-z0-9]`. -/
def isTagChar (c : Char) : Bool :=
  (decide ('a' ≤ c) && decide (c ≤ 'z')) || (decide ('0' ≤ c) && decide (c ≤ '9'))

/-- `isValidTagUid(uid)`, source line 196-198:
`/^(?:[a-z0-9]{10}|TAG_[a-z0-9]{8})$/.test(uid)` — either ten class
characters, or the four literal characters `TAG_` followed by eight class
characters. -/
def isValidTagUid (s : String) : Bool :=
  let cs := s.data
  (cs.length == 10 && cs.all isTagChar) ||
  (cs.take 4 == ['T', 'A', 'G', '_'] && cs.length == 12 && (cs.drop 4).all isTagChar)

/-- The 36-symbol alphabet of `generateTagId` (source line 178). -/
def tagAlphabet : List Char := "abcdefghijklmnopqrstuvwxyz0123456789".data

/-- `generateTagId()`, source lines 177-184: ten draws of
`Math.floor(Math.random() * alphabet.length)`, each an index below 36,
concatenated.  The random draws are the argument `r`. -/
def generateTagId (r : Fin 10 → Fin 36) : String :=
  String.mk (List.ofFn fun i => tagAlphabet.getD (r i).val 'a')

/-- The claim's wording of validity: exactly ten characters drawn from
`[a-z0-9]`, or the literal prefix `TAG_` followed by exactly eight characters
from `[a-z0-9]`. -/
def specValidTagUid (s : String) : Prop :=
  (s.data.length = 10 ∧ ∀ c ∈ s.data, isTagChar c = true) ∨
  (∃ t : List Char, s.data = 'T' :: 'A' :: 'G' :: '_' :: t ∧ t.length = 8 ∧
    ∀ c ∈ t, isTagChar c = true)

/-! ## Scan Event Normalizer (source lines 169-175) -/

/-- A scan event as consumed by `getNfcKey`: the camelCase `hardwareUid`
field and the snake_case `hardware_uid` field both occur in the source
(`nfc.hardwareUid || nfc.hardware_uid`), so both are modelled.  A missing
field is the empty string. -/
structure ScanEvent where
  at_ : String
  uid : String
  known : Bool
  hardwareUid : String
  hardware_uid : String
deriving DecidableEq, Repr

/-- `getNfcKey(nfc)`, source lines 169-175: empty string for a missing
event, otherwise `at + ':' + uid + ':' + (hardwareUid || hardware_uid || '')`. -/
def getNfcKey : Option ScanEvent → String
  | none => ""
  | some n => n.at_ ++ ":" ++ n.uid ++ ":" ++ jsOr n.hardwareUid n.hardware_uid

lemma tagAlphabet_getD_mem : ∀ k : Fin 36, tagAlphabet.getD k.val 'a' ∈ tagAlphabet := by
  decide

lemma tagAlphabet_getD_isTagChar : ∀ k : Fin 36, isTagChar (tagAlphabet.getD k.val 'a') = true := by
  decide

lemma isValidTagUid_mk_ten (l : List Char) (hl : l.length = 10)
    (ha : l.all isTagChar = true) : isValidTagUid (String.mk l) = true := by
  show ((l.length == 10 && l.all isTagChar) ||
    (l.take 4 == ['T', 'A', 'G', '_'] && l.length == 12 && (l.drop 4).all isTagChar)) = true
  simp [hl, ha]

/-- C1: `isValidTagUid` accepts exactly the strings that are ten characters
from `[a-z0-9]`, or the literal prefix `TAG_` followed by eight characters
from `[a-z0-9]`; in particular `"ab12cd34ef"` and `"TAG_abcd1234"` are
accepted and `"short"` is rejected. -/
theorem c1_isValidTagUid_characterization :
    (∀ s : String, isValidTagUid s = true ↔ specValidTagUid s) ∧
    isValidTagUid "ab12cd34ef" = true ∧
    isValidTagUid "TAG_abcd1234" = true ∧
    isValidTagUid "short" = false := by
  refine ⟨?_, by decide, by decide, by decide⟩
  intro s
  unfold isValidTagUid specValidTagUid
  simp only [Bool.or_eq_true, Bool.and_eq_true, beq_iff_eq, List.all_eq_true]
  constructor
  · rintro (⟨h10, hall⟩ | ⟨⟨htake, h12⟩, hall⟩)
    · exact Or.inl ⟨h10, hall⟩
    · refine Or.inr ⟨s.data.drop 4, ?_, ?_, hall⟩
      · conv_lhs => rw [← List.take_append_drop 4 s.data]
        rw [htake]
        rfl
      · rw [List.length_drop, h12]
  · rintro (⟨h10, hall⟩ | ⟨t, hdata, hlen, hall⟩)
    · exact Or.inl ⟨h10, hall⟩
    · refine Or.inr ⟨⟨?_, ?_⟩, ?_⟩
      · rw [hdata]
        rfl
      · rw [hdata]
        simp [hlen]
      · rw [hdata]
        simpa using hall

/-- C9: every sequence of ten in-range random draws makes `generateTagId`
return a string of exactly ten characters, each from the 36-symbol alphabet
`[a-z0-9]`, and the result satisfies `isValidTagUid`. -/
theorem c9_generateTagId_valid (r : Fin 10 → Fin 36) :
    (generateTagId r).data.length = 10 ∧
    (∀ c ∈ (generateTagId r).data, c ∈ tagAlphabet) ∧
    isValidTagUid (generateTagId r) = true := by
  have hdata : (generateTagId r).data = List.ofFn fun i => tagAlphabet.getD (r i).val 'a' := rfl
  have hlen : (List.ofFn fun i : Fin 10 => tagAlphabet.getD (r i).val 'a').length = 10 :=
    List.length_ofFn _
  have hall : (List.ofFn fun i : Fin 10 => tagAlphabet.getD (r i).val 'a').all isTagChar
      = true := by
    rw [List.all_eq_true]
    intro c hc
    rw [List.mem_ofFn] at hc
    obtain ⟨i, hi⟩ := hc
    rw [← hi]
    exact tagAlphabet_getD_isTagChar (r i)
  refine ⟨by rw [hdata]; exact hlen, ?_, ?_⟩
  · intro c hc
    rw [hdata, List.mem_ofFn] at hc
    obtain ⟨i, hi⟩ := hc
    rw [← hi]
    exact tagAlphabet_getD_mem (r i)
  · exact isValidTagUid_mk_ten _ hlen hall

/-- Witness for C1 at the spec's accepted example uid. -/
theorem c1_isValidTagUid_characterization_witness :
    isValidTagUid "ab12cd34ef" = true :=
  c1_isValidTagUid_characterization.2.1

/-- Witness for C9 at a concrete sequence of draws. -/
theorem c9_generateTagId_valid_witness :
    isValidTagUid (generateTagId fun _ => (0 : Fin 36)) = true :=
  (c9_generateTagId_valid fun _ => (0 : Fin 36)).2.2

/-! ## Scan feed actionability effect (source lines 535-563)

The effect that opens or resets the provisioning wizard for a scan event:
it fires only when the polled status carries a `last_nfc` with a non-empty
`uid` and `known` false, and the key `last_nfc_at + ':' + uid` differs from
the ref of the most recently actioned event. -/

/-- `status.last_nfc` as polled from a box (source `getStatus`). -/
structure LastNfc where
  uid : String
  known : Bool
  hardwareUid : String
  hardware_uid : String
deriving DecidableEq, Repr

/-- A box status: the scan-event source `{ last_nfc, last_nfc_at }`. -/
structure BoxStatus where
  last_nfc : Option LastNfc
  last_nfc_at : String
deriving DecidableEq, Repr

/-- The wizard-opening effect: returns whether the event was actioned and
the new value of `lastNfcKeyRef`. -/
def nfcScanEffect (status : Option BoxStatus) (lastNfcKeyRef : String) : Bool × String :=
  match status with
  | none => (false, lastNfcKeyRef)
  | some s =>
    match s.last_nfc with
    | none => (false, lastNfcKeyRef)
    | some n =>
      if n.uid = "" then (false, lastNfcKeyRef)
      else if n.known then (false, lastNfcKeyRef)
      else
        let key := s.last_nfc_at ++ ":" ++ n.uid
        if lastNfcKeyRef = key then (false, lastNfcKeyRef)
        else (true, key)

/-- The scan event corresponding to a polled status record (the source
builds it as `{ ...status.last_nfc, at: status.last_nfc_at }`). -/
def eventOfStatus (s : BoxStatus) (n : LastNfc) : ScanEvent :=
  ⟨s.last_nfc_at, n.uid, n.known, n.hardwareUid, n.hardware_uid⟩

/-- C2 fails as stated: `getNfcKey` also reads the snake-case
`hardware_uid` field, so two events with identical `{uid, hardwareUid, at}`
triples can produce different keys. -/
theorem c2_getNfcKey_counterexample :
    let e1 : ScanEvent := ⟨"t", "u", false, "", "A"⟩
    let e2 : ScanEvent := ⟨"t", "u", false, "", "B"⟩
    e1.uid = e2.uid ∧ e1.hardwareUid = e2.hardwareUid ∧ e1.at_ = e2.at_ ∧
    getNfcKey (some e1) ≠ getNfcKey (some e2) := by
  decide

/-- C2 amended: the key is empty for a missing event and otherwise joins
`at`, `uid` and the effective hardware id (`hardwareUid` falling back to
`hardware_uid`) with `:`; it depends only on those four fields. -/
theorem c2_getNfcKey_amended :
    getNfcKey none = "" ∧
    (∀ e : ScanEvent, getNfcKey (some e)
      = e.at_ ++ ":" ++ e.uid ++ ":" ++ jsOr e.hardwareUid e.hardware_uid) ∧
    (∀ e1 e2 : ScanEvent, e1.at_ = e2.at_ → e1.uid = e2.uid →
      e1.hardwareUid = e2.hardwareUid → e1.hardware_uid = e2.hardware_uid →
      getNfcKey (some e1) = getNfcKey (some e2)) := by
  refine ⟨rfl, fun e => rfl, ?_⟩
  intro e1 e2 h1 h2 h3 h4
  simp [getNfcKey, h1, h2, h3, h4]

/-- Witness for the amended C2 at concrete events differing only in `known`. -/
theorem c2_getNfcKey_amended_witness :
    getNfcKey (some ⟨"t", "u", false, "hw", "x"⟩)
      = getNfcKey (some ⟨"t", "u", true, "hw", "x"⟩) :=
  c2_getNfcKey_amended.2.2 ⟨"t", "u", false, "hw", "x"⟩ ⟨"t", "u", true, "hw", "x"⟩
    rfl rfl rfl rfl

/-- C3 fails as stated: the effect compares only `last_nfc_at + ':' + uid`,
so two events with equal normalized keys (per §4.2, including
`hardwareUid`) can both be actioned when a separator collision makes their
`at:uid` pair keys differ. -/
theorem c3_actionability_counterexample :
    let s1 : BoxStatus := ⟨some ⟨"2:3", false, "4", ""⟩, "1"⟩
    let s2 : BoxStatus := ⟨some ⟨"2", false, "3:4", ""⟩, "1"⟩
    getNfcKey (some (eventOfStatus s1 ⟨"2:3", false, "4", ""⟩))
      = getNfcKey (some (eventOfStatus s2 ⟨"2", false, "3:4", ""⟩)) ∧
    (nfcScanEffect (some s1) "").1 = true ∧
    (nfcScanEffect (some s2) (nfcScanEffect (some s1) "").2).1 = true := by
  decide

/-- C3 amended: a scan event is actioned only if `known` is false, `uid` is
non-empty, and the pair key `last_nfc_at + ':' + uid` differs from the most
recently actioned pair key; an event whose pair key equals the last
actioned pair key is never actioned again. -/
theorem c3_actionability_amended (status status2 : Option BoxStatus) (ref : String) :
    ((nfcScanEffect status ref).1 = true →
      ∃ s n, status = some s ∧ s.last_nfc = some n ∧ n.known = false ∧ n.uid ≠ "" ∧
        s.last_nfc_at ++ ":" ++ n.uid ≠ ref ∧
        (nfcScanEffect status ref).2 = s.last_nfc_at ++ ":" ++ n.uid) ∧
    (∀ s2 n2, status2 = some s2 → s2.last_nfc = some n2 →
      s2.last_nfc_at ++ ":" ++ n2.uid = (nfcScanEffect status ref).2 →
      (nfcScanEffect status2 (nfcScanEffect status ref).2).1 = false) := by
  constructor
  · intro hact
    match hs : status with
    | none => simp [nfcScanEffect, hs] at hact
    | some s =>
      match hn : s.last_nfc with
      | none => simp [nfcScanEffect, hn] at hact
      | some n =>
        refine ⟨s, n, rfl, hn, ?_⟩
        simp only [nfcScanEffect, hn] at hact ⊢
        by_cases h1 : n.uid = ""
        · simp [h1] at hact
        · by_cases h2 : n.known
          · simp [h1, h2] at hact
          · by_cases h3 : ref = s.last_nfc_at ++ ":" ++ n.uid
            · simp [h1, h2, h3] at hact
            · simp only [Bool.not_eq_true] at h2
              exact ⟨h2, h1, fun hk => h3 hk.symm, by simp [h1, h2, h3]⟩
  · intro s2 n2 hs2 hn2 hkey
    subst hs2
    set newRef := (nfcScanEffect status ref).2 with hnr
    simp only [nfcScanEffect, hn2]
    by_cases h1 : n2.uid = ""
    · simp [h1]
    · by_cases h2 : n2.known
      · simp [h1, h2]
      · simp [h1, h2, ← hkey]

/-- Witness for the amended C3 at a concrete actioned event. -/
theorem c3_actionability_amended_witness :
    (nfcScanEffect (some ⟨some ⟨"ab", false, "", ""⟩, "t"⟩) "").1 = true ∧
    (nfcScanEffect (some ⟨some ⟨"ab", false, "", ""⟩, "t"⟩)
      (nfcScanEffect (some ⟨some ⟨"ab", false, "", ""⟩, "t"⟩) "").2).1 = false :=
  ⟨by decide,
    (c3_actionability_amended (some ⟨some ⟨"ab", false, "", ""⟩, "t"⟩)
      (some ⟨some ⟨"ab", false, "", ""⟩, "t"⟩) "").2
      ⟨some ⟨"ab", false, "", ""⟩, "t"⟩ ⟨"ab", false, "", ""⟩ rfl rfl (by decide)⟩

/-! ## Wizard commit `handleClaimTagForScan` (source lines 1253-1331)

The commit is modelled as a pure function of the visible component state
and an environment giving each collaborator call's response; it returns the
ordered trace of collaborator calls together with the reported toasts and
error values. -/

/-- A registry record as far as the commit inspects it. -/
structure Tag where
  uid : String
  status : String
deriving DecidableEq, Repr

/-- Result of a collaborator mutation: ok, or a failure detail message. -/
inductive RResult where
  | ok : RResult
  | err : String → RResult
deriving DecidableEq, Repr

/-- Result of `claimTag`: ok with the returned uid, or a failure detail. -/
inductive ClaimRes where
  | ok : String → ClaimRes
  | err : String → ClaimRes
deriving DecidableEq, Repr

/-- Responses of the collaborator store for the calls the commit makes. -/
structure CommitEnv where
  markTagWritten : String → RResult
  claimTag : String → String → ClaimRes
  setTagMedia : String → String → RResult
  assignTag : String → String → RResult

/-- One collaborator call, as recorded in the commit trace.  `deleteTag`
and `unassignTag` exist in the collaborator API (other handlers use them)
and are included so that their absence from a commit trace is expressible. -/
inductive RegCall where
  | markTagWritten (uid : String)
  | claimTag (uid label : String)
  | setTagMedia (uid path : String)
  | assignTag (uid boxId : String)
  | sendCommand (boxId command uid : String)
  | getTags
  | getBoxTags (boxId : String)
  | deleteTag (uid : String)
  | unassignTag (uid boxId : String)
deriving DecidableEq, Repr

/-- The component state read by `handleClaimTagForScan`. -/
structure CommitState where
  scanTagUid : String
  scanTagLabel : String
  scanMediaPath : String
  selectedId : String
  tags : List Tag
  status : Option BoxStatus
  simulatedNfc : Option ScanEvent

/-- Observable outcome of one commit run: the ordered collaborator-call
trace, the toasts `(severity, message)` in order, and the final values of
the two error fields (`error = none` meaning the banner was not touched). -/
structure CommitResult where
  calls : List RegCall
  toasts : List (String × String)
  tagUidError : String
  error : Option String
deriving DecidableEq, Repr

/-- The inline validation message of source lines 1262-1264 and 1276-1278. -/
def invalidUidMsg : String :=
  "UID ungueltig. Bitte 10 Zeichen (a-z, 0-9) oder TAG_ + 8 Zeichen verwenden."

/-- Outcome of the write step (source lines 1255-1286): early return with
the inline uid error, early return with a reported error, or proceed. -/
inductive WStep where
  | earlyInvalid (calls : List RegCall)
  | earlyError (calls : List RegCall) (msg : String)
  | proceed (calls : List RegCall) (newScanUid : Option String)
deriving DecidableEq, Repr

/-- Write step of the commit: mark an existing NEW tag written, do nothing
for an existing tag in any other status, claim a fresh tag otherwise. -/
def writeStep (st : CommitState) (env : CommitEnv) : WStep :=
  let currentUid := jsTrim st.scanTagUid
  match st.tags.find? (fun t => t.uid == currentUid) with
  | some tag =>
    if tag.status == "NEW" then
      match env.markTagWritten currentUid with
      | .ok => .proceed [.markTagWritten currentUid] none
      | .err d =>
        if d == "invalid uid" then .earlyInvalid [.markTagWritten currentUid]
        else .earlyError [.markTagWritten currentUid] (jsOr d "Tag schreiben fehlgeschlagen.")
    else .proceed [] none
  | none =>
    match env.claimTag currentUid (jsTrim st.scanTagLabel) with
    | .ok u => .proceed [.claimTag currentUid (jsTrim st.scanTagLabel)] (some u)
    | .err d =>
      if d == "invalid uid" then .earlyInvalid [.claimTag currentUid (jsTrim st.scanTagLabel)]
      else .earlyError [.claimTag currentUid (jsTrim st.scanTagLabel)]
        (jsOr d "Tag schreiben fehlgeschlagen.")

/-- The calls a write step performed, whatever its outcome. -/
def WStep.callsOf : WStep → List RegCall
  | .earlyInvalid calls => calls
  | .earlyError calls _ => calls
  | .proceed calls _ => calls

/-- `activeNfc` (source lines 1722-1727): the polled unknown event when one
is present, the locally simulated event otherwise. -/
def activeNfc (status : Option BoxStatus) (simulatedNfc : Option ScanEvent) :
    Option ScanEvent :=
  match status with
  | some s =>
    match s.last_nfc with
    | some n => if n.known = false then some (eventOfStatus s n) else simulatedNfc
    | none => simulatedNfc
  | none => simulatedNfc

/-- `status?.last_nfc?.known === false` of source line 1293. -/
def lastNfcUnknown : Option BoxStatus → Bool
  | some s =>
    match s.last_nfc with
    | some n => n.known == false
    | none => false
  | none => false

/-- `activeNfc?.known === false` of source line 1308. -/
def activeKnownFalse : Option ScanEvent → Bool
  | some e => e.known == false
  | none => false

/-- The network calls of `handlePlayerCommand('nfc_on', { uid })` (source
lines 836-883): nothing without a selected box; an empty trimmed uid only
synthesizes a local simulated event and sends nothing; otherwise one
`sendCommand` with command `nfc_on`. -/
def playerNfcOnCalls (selectedId uid : String) : List RegCall :=
  if selectedId = "" then []
  else if jsTrim uid = "" then []
  else [.sendCommand selectedId "nfc_on" (jsTrim uid)]

/-- The view-refresh reads at the end of the commit (source lines 1321-1330). -/
def refreshCalls (selectedId : String) : List RegCall :=
  [.getTags] ++ (if selectedId = "" then [] else [.getBoxTags selectedId])

/-- `handleClaimTagForScan` (source lines 1253-1331). -/
def handleClaimTagForScan (st : CommitState) (env : CommitEnv) : CommitResult :=
  let currentUid := jsTrim st.scanTagUid
  match writeStep st env with
  | .earlyInvalid calls =>
    { calls := calls, toasts := [], tagUidError := invalidUidMsg, error := none }
  | .earlyError calls msg =>
    { calls := calls, toasts := [("error", msg)], tagUidError := "", error := some msg }
  | .proceed pre _ =>
    let writeToast := ("success", "Tag geschrieben.")
    let a := activeNfc st.status st.simulatedNfc
    let shouldAssign :=
      st.selectedId != "" && lastNfcUnknown st.status && st.scanMediaPath != ""
    if shouldAssign then
      match env.setTagMedia currentUid st.scanMediaPath with
      | .err d =>
        { calls := pre ++ [.setTagMedia currentUid st.scanMediaPath]
          toasts := [writeToast, ("error", jsOr d "Medium setzen fehlgeschlagen.")]
          tagUidError := ""
          error := some (jsOr d "Medium setzen fehlgeschlagen.") }
      | .ok =>
        match env.assignTag currentUid st.selectedId with
        | .err d =>
          { calls := pre ++ [.setTagMedia currentUid st.scanMediaPath,
              .assignTag currentUid st.selectedId]
            toasts := [writeToast, ("error", jsOr d "Zuordnung fehlgeschlagen.")]
            tagUidError := ""
            error := some (jsOr d "Zuordnung fehlgeschlagen.") }
        | .ok =>
          let cmd := if activeKnownFalse a then playerNfcOnCalls st.selectedId currentUid
            else []
          { calls := pre ++ ([.setTagMedia currentUid st.scanMediaPath,
              .assignTag currentUid st.selectedId] ++ cmd ++ refreshCalls st.selectedId)
            toasts := [writeToast, ("success", "Tag zugeordnet.")]
            tagUidError := ""
            error := some "" }
    else
      let extra := if st.selectedId != "" && lastNfcUnknown st.status then
          [("success", "Tag gespeichert. Medium fehlt noch.")] else []
      { calls := pre ++ refreshCalls st.selectedId
        toasts := [writeToast] ++ extra
        tagUidError := ""
        error := some "" }

lemma writeStep_calls_shape (st : CommitState) (env : CommitEnv) :
    ∀ c ∈ (writeStep st env).callsOf,
      (∃ u, c = RegCall.markTagWritten u) ∨ ∃ u l, c = RegCall.claimTag u l := by
  intro c hc
  simp only [writeStep] at hc
  rcases hfind : st.tags.find? (fun t => t.uid == jsTrim st.scanTagUid) with _ | tg <;>
    simp only [hfind] at hc
  · rcases henv : env.claimTag (jsTrim st.scanTagUid) (jsTrim st.scanTagLabel) with u | d <;>
      simp only [henv] at hc
    · right
      simp only [WStep.callsOf, List.mem_singleton] at hc
      exact ⟨_, _, hc⟩
    · right
      by_cases hd : (d == "invalid uid") = true <;>
        simp only [hd, Bool.false_eq_true, if_true, if_false, WStep.callsOf,
          List.mem_singleton] at hc <;>
        exact ⟨_, _, hc⟩
  · by_cases hnew : (tg.status == "NEW") = true <;>
      simp only [hnew, Bool.false_eq_true, if_true, if_false, WStep.callsOf] at hc
    · rcases henv : env.markTagWritten (jsTrim st.scanTagUid) with _ | d <;>
        simp only [henv] at hc
      · left
        simp only [WStep.callsOf, List.mem_singleton] at hc
        exact ⟨_, hc⟩
      · left
        by_cases hd : (d == "invalid uid") = true <;>
          simp only [hd, Bool.false_eq_true, if_true, if_false, WStep.callsOf,
            List.mem_singleton] at hc <;>
          exact ⟨_, hc⟩
    · simp at hc

lemma activeKnownFalse_of_unknown (status : Option BoxStatus) (sim : Option ScanEvent)
    (h : lastNfcUnknown status = true) :
    activeKnownFalse (activeNfc status sim) = true := by
  rcases status with _ | s
  · simp [lastNfcUnknown] at h
  · rcases hn : s.last_nfc with _ | n
    · simp [lastNfcUnknown, hn] at h
    · simp only [lastNfcUnknown, hn, beq_iff_eq] at h
      simp [activeNfc, hn, h, activeKnownFalse, eventOfStatus]

lemma refreshCalls_shape (b : String) :
    ∀ c ∈ refreshCalls b, c = RegCall.getTags ∨ ∃ bb, c = RegCall.getBoxTags bb := by
  intro c hc
  unfold refreshCalls at hc
  rcases List.mem_append.mp hc with h | h
  · left
    simpa using h
  · right
    by_cases hb : b = "" <;> simp [hb] at h
    exact ⟨_, h⟩

lemma playerNfcOnCalls_shape (b u : String) :
    ∀ c ∈ playerNfcOnCalls b u, ∃ b2 cm u2, c = RegCall.sendCommand b2 cm u2 := by
  intro c hc
  unfold playerNfcOnCalls at hc
  by_cases h1 : b = "" <;> simp [h1] at hc
  by_cases h2 : jsTrim u = "" <;> simp [h2] at hc
  exact ⟨_, _, _, hc⟩

/-- Shape of the commit outcome when the write step proceeds: the trace is
the write step's calls followed only by media/assignment/command/read
calls, the first toast is the write-success toast, and the inline uid error
is clear. -/
lemma handleClaim_proceed_spec (st : CommitState) (env : CommitEnv)
    (pre : List RegCall) (nu : Option String)
    (hw : writeStep st env = .proceed pre nu) :
    ∃ post,
      (handleClaimTagForScan st env).calls = pre ++ post ∧
      (∀ c ∈ post, (∃ u p, c = RegCall.setTagMedia u p) ∨ (∃ u b, c = RegCall.assignTag u b) ∨
        (∃ b cm u, c = RegCall.sendCommand b cm u) ∨ c = RegCall.getTags ∨
        ∃ b, c = RegCall.getBoxTags b) ∧
      (handleClaimTagForScan st env).toasts.head? = some ("success", "Tag geschrieben.") ∧
      (handleClaimTagForScan st env).tagUidError = "" := by
  simp only [handleClaimTagForScan, hw]
  by_cases hsa : (st.selectedId != "" && lastNfcUnknown st.status && st.scanMediaPath != "")
      = true
  · simp only [hsa, if_true]
    rcases hm : env.setTagMedia (jsTrim st.scanTagUid) st.scanMediaPath with _ | d
    · rcases ha : env.assignTag (jsTrim st.scanTagUid) st.selectedId with _ | d
      · refine ⟨_, by rfl, ?_, by simp, by simp⟩
        intro c hc
        rcases List.mem_append.mp hc with h | h
        · rcases List.mem_append.mp h with h2 | h2
          · simp only [List.mem_cons, List.mem_singleton, List.not_mem_nil, or_false] at h2
            rcases h2 with h3 | h3
            · exact Or.inl ⟨_, _, h3⟩
            · exact Or.inr (Or.inl ⟨_, _, h3⟩)
          · by_cases hfalse : activeKnownFalse (activeNfc st.status st.simulatedNfc) = true
            · rw [if_pos hfalse] at h2
              exact Or.inr (Or.inr (Or.inl (playerNfcOnCalls_shape _ _ _ h2)))
            · rw [if_neg hfalse] at h2
              cases h2
        · rcases refreshCalls_shape _ _ h with h2 | h2
          · exact Or.inr (Or.inr (Or.inr (Or.inl h2)))
          · exact Or.inr (Or.inr (Or.inr (Or.inr h2)))
      · refine ⟨_, by rfl, ?_, by simp, by simp⟩
        intro c hc
        simp only [List.mem_cons, List.mem_singleton, List.not_mem_nil, or_false] at hc
        rcases hc with h | h
        · exact Or.inl ⟨_, _, h⟩
        · exact Or.inr (Or.inl ⟨_, _, h⟩)
    · refine ⟨_, by rfl, ?_, by simp, by simp⟩
      intro c hc
      rw [List.mem_singleton] at hc
      exact Or.inl ⟨_, _, hc⟩
  · simp only [Bool.not_eq_true] at hsa
    simp only [hsa, Bool.false_eq_true, if_false]
    refine ⟨_, by rfl, ?_, by simp, by simp⟩
    intro c hc
    rcases refreshCalls_shape _ _ hc with h2 | h2
    · exact Or.inr (Or.inr (Or.inr (Or.inl h2)))
    · exact Or.inr (Or.inr (Or.inr (Or.inr h2)))

/-- C4: when a tag with the working uid exists and its status is not NEW,
the commit performs no status-changing registry mutation (no
`markTagWritten`, no `claimTag`, no `deleteTag`) and reports the write
success toast with a clear inline error. -/
theorem c4_commit_idempotent_on_written (st : CommitState) (env : CommitEnv) (tg : Tag)
    (hfind : st.tags.find? (fun t => t.uid == jsTrim st.scanTagUid) = some tg)
    (hstatus : tg.status ≠ "NEW") :
    (∀ u, RegCall.markTagWritten u ∉ (handleClaimTagForScan st env).calls) ∧
    (∀ u l, RegCall.claimTag u l ∉ (handleClaimTagForScan st env).calls) ∧
    (∀ u, RegCall.deleteTag u ∉ (handleClaimTagForScan st env).calls) ∧
    (handleClaimTagForScan st env).toasts.head? = some ("success", "Tag geschrieben.") ∧
    (handleClaimTagForScan st env).tagUidError = "" := by
  have hbeq : (tg.status == "NEW") = false := by
    rw [beq_eq_false_iff_ne]
    exact hstatus
  have hw : writeStep st env = .proceed [] none := by
    simp only [writeStep, hfind, hbeq, Bool.false_eq_true, if_false]
  obtain ⟨post, hcalls, hshape, hhead, herr⟩ := handleClaim_proceed_spec st env [] none hw
  rw [List.nil_append] at hcalls
  refine ⟨?_, ?_, ?_, hhead, herr⟩
  · intro u hmem
    rw [hcalls] at hmem
    rcases hshape _ hmem with ⟨_, _, h⟩ | ⟨_, _, h⟩ | ⟨_, _, _, h⟩ | h | ⟨_, h⟩ <;> cases h
  · intro u l hmem
    rw [hcalls] at hmem
    rcases hshape _ hmem with ⟨_, _, h⟩ | ⟨_, _, h⟩ | ⟨_, _, _, h⟩ | h | ⟨_, h⟩ <;> cases h
  · intro u hmem
    rw [hcalls] at hmem
    rcases hshape _ hmem with ⟨_, _, h⟩ | ⟨_, _, h⟩ | ⟨_, _, _, h⟩ | h | ⟨_, h⟩ <;> cases h

/-- Witness for C4 at a concrete state whose tag is already WRITTEN. -/
theorem c4_commit_idempotent_on_written_witness :
    (RegCall.markTagWritten "ab12cd34ef")
      ∉ (handleClaimTagForScan
          ⟨"ab12cd34ef", "", "", "box-1", [⟨"ab12cd34ef", "WRITTEN"⟩],
            none, none⟩
          ⟨fun _ => .ok, fun _ _ => .ok "", fun _ _ => .ok, fun _ _ => .ok⟩).calls :=
  (c4_commit_idempotent_on_written
    ⟨"ab12cd34ef", "", "", "box-1", [⟨"ab12cd34ef", "WRITTEN"⟩], none, none⟩
    ⟨fun _ => .ok, fun _ _ => .ok "", fun _ _ => .ok, fun _ _ => .ok⟩
    ⟨"ab12cd34ef", "WRITTEN"⟩ (by decide) (by decide)).1 "ab12cd34ef"

/-- C5: when the commit's write step proceeds, the scan event is unknown, a
box is selected and a media folder was chosen, the trace continues with
`setTagMedia` first and `assignTag` second; a failure of either reports the
error and ends the trace there (no retry, no further sub-step), and no
compensating `deleteTag`/`unassignTag` ever appears in a commit trace. -/
theorem c5_commit_assign_sequence (st : CommitState) (env : CommitEnv)
    (pre : List RegCall) (nu : Option String)
    (hw : writeStep st env = .proceed pre nu)
    (hsel : st.selectedId ≠ "")
    (hknown : lastNfcUnknown st.status = true)
    (hmedia : st.scanMediaPath ≠ "") :
    (∀ u, RegCall.deleteTag u ∉ (handleClaimTagForScan st env).calls) ∧
    (∀ u b, RegCall.unassignTag u b ∉ (handleClaimTagForScan st env).calls) ∧
    (match env.setTagMedia (jsTrim st.scanTagUid) st.scanMediaPath with
     | .err d =>
        (handleClaimTagForScan st env).calls
          = pre ++ [RegCall.setTagMedia (jsTrim st.scanTagUid) st.scanMediaPath] ∧
        (handleClaimTagForScan st env).error
          = some (jsOr d "Medium setzen fehlgeschlagen.") ∧
        ("error", jsOr d "Medium setzen fehlgeschlagen.")
          ∈ (handleClaimTagForScan st env).toasts
     | .ok =>
        match env.assignTag (jsTrim st.scanTagUid) st.selectedId with
        | .err d =>
          (handleClaimTagForScan st env).calls
            = pre ++ [RegCall.setTagMedia (jsTrim st.scanTagUid) st.scanMediaPath,
                RegCall.assignTag (jsTrim st.scanTagUid) st.selectedId] ∧
          (handleClaimTagForScan st env).error = some (jsOr d "Zuordnung fehlgeschlagen.") ∧
          ("error", jsOr d "Zuordnung fehlgeschlagen.")
            ∈ (handleClaimTagForScan st env).toasts
        | .ok =>
          ∃ rest,
            (handleClaimTagForScan st env).calls
              = pre ++ ([RegCall.setTagMedia (jsTrim st.scanTagUid) st.scanMediaPath,
                  RegCall.assignTag (jsTrim st.scanTagUid) st.selectedId] ++ rest) ∧
            ∀ c ∈ rest, (∃ b2 cm u2, c = RegCall.sendCommand b2 cm u2) ∨
              c = RegCall.getTags ∨ ∃ b2, c = RegCall.getBoxTags b2) := by
  have hpre : ∀ c ∈ pre,
      (∃ u, c = RegCall.markTagWritten u) ∨ ∃ u l, c = RegCall.claimTag u l := by
    have h := writeStep_calls_shape st env
    rw [hw] at h
    simpa [WStep.callsOf] using h
  obtain ⟨post, hcalls, hshape, -, -⟩ := handleClaim_proceed_spec st env pre nu hw
  have hsa : (st.selectedId != "" && lastNfcUnknown st.status && st.scanMediaPath != "")
      = true := by
    simp [Bool.and_eq_true, bne_iff_ne, hsel, hknown, hmedia]
  refine ⟨?_, ?_, ?_⟩
  · intro u hmem
    rw [hcalls] at hmem
    rcases List.mem_append.mp hmem with h | h
    · rcases hpre _ h with ⟨_, h2⟩ | ⟨_, _, h2⟩ <;> cases h2
    · rcases hshape _ h with ⟨_, _, h2⟩ | ⟨_, _, h2⟩ | ⟨_, _, _, h2⟩ | h2 | ⟨_, h2⟩ <;>
        cases h2
  · intro u b hmem
    rw [hcalls] at hmem
    rcases List.mem_append.mp hmem with h | h
    · rcases hpre _ h with ⟨_, h2⟩ | ⟨_, _, h2⟩ <;> cases h2
    · rcases hshape _ h with ⟨_, _, h2⟩ | ⟨_, _, h2⟩ | ⟨_, _, _, h2⟩ | h2 | ⟨_, h2⟩ <;>
        cases h2
  · rcases hm : env.setTagMedia (jsTrim st.scanTagUid) st.scanMediaPath with _ | d
    · rcases ha : env.assignTag (jsTrim st.scanTagUid) st.selectedId with _ | d
      · refine ⟨(if activeKnownFalse (activeNfc st.status st.simulatedNfc) = true then
            playerNfcOnCalls st.selectedId (jsTrim st.scanTagUid) else [])
            ++ refreshCalls st.selectedId, ?_, ?_⟩
        · simp only [handleClaimTagForScan, hw, hsa, if_true, hm, ha]
          simp [List.append_assoc]
        · intro c hc
          rcases List.mem_append.mp hc with h | h
          · by_cases hfalse : activeKnownFalse (activeNfc st.status st.simulatedNfc) = true
            · rw [if_pos hfalse] at h
              exact Or.inl (playerNfcOnCalls_shape _ _ _ h)
            · rw [if_neg hfalse] at h
              cases h
          · rcases refreshCalls_shape _ _ h with h2 | h2
            · exact Or.inr (Or.inl h2)
            · exact Or.inr (Or.inr h2)
      · simp only [handleClaimTagForScan, hw, hsa, if_true, hm, ha]
        refine ⟨by simp, by simp, by simp⟩
    · simp only [handleClaimTagForScan, hw, hsa, if_true, hm]
      refine ⟨by simp, by simp, by simp⟩

/-- C5 fails as stated: for a reachable purely simulated touch — the
polled status carries no `last_nfc`, the locally simulated event is
unknown with no physical UID — with a box selected and a media folder
chosen, the commit claims the tag but performs no `setTagMedia` and no
`assignTag` at all: the `shouldAssign` guard (source line 1293) tests only
the polled `status?.last_nfc?.known`, not the originating event. -/
theorem c5_commit_assign_counterexample :
    let st : CommitState :=
      ⟨"zz99zz99zz", "Story Time", "audiobooks/grimm", "box-42", [],
        none, some ⟨"t0", "", false, "AB:CD", ""⟩⟩
    let env : CommitEnv :=
      ⟨fun _ => .ok, fun _ _ => .ok "zz99zz99zz", fun _ _ => .ok, fun _ _ => .ok⟩
    activeNfc st.status st.simulatedNfc = some ⟨"t0", "", false, "AB:CD", ""⟩ ∧
    activeKnownFalse (activeNfc st.status st.simulatedNfc) = true ∧
    st.scanMediaPath = "audiobooks/grimm" ∧ st.selectedId = "box-42" ∧
    (handleClaimTagForScan st env).calls
      = [RegCall.claimTag "zz99zz99zz" "Story Time", RegCall.getTags,
          RegCall.getBoxTags "box-42"] := by
  decide

/-- Witness for C5 at a concrete commit on an already-written tag. -/
theorem c5_commit_assign_sequence_witness :
    RegCall.deleteTag "x"
      ∉ (handleClaimTagForScan
          ⟨"ab12cd34ef", "", "audiobooks/m", "box-1", [⟨"ab12cd34ef", "WRITTEN"⟩],
            some ⟨some ⟨"ab12cd34ef", false, "", ""⟩, "t"⟩, none⟩
          ⟨fun _ => .ok, fun _ _ => .ok "", fun _ _ => .ok, fun _ _ => .ok⟩).calls :=
  (c5_commit_assign_sequence
    ⟨"ab12cd34ef", "", "audiobooks/m", "box-1", [⟨"ab12cd34ef", "WRITTEN"⟩],
      some ⟨some ⟨"ab12cd34ef", false, "", ""⟩, "t"⟩, none⟩
    ⟨fun _ => .ok, fun _ _ => .ok "", fun _ _ => .ok, fun _ _ => .ok⟩
    [] none (by decide) (by decide) (by decide) (by decide)).1 "x"

/-- C6 fails as stated: the guard before the simulate-recognition command is
`activeNfc?.known === false`, which always holds on the assignment path, so
the command is sent even when the originating event carried a physical UID. -/
theorem c6_simulate_command_counterexample :
    let st : CommitState :=
      ⟨"ab12cd34ef", "", "audiobooks/x", "box-1", [⟨"ab12cd34ef", "NEW"⟩],
        some ⟨some ⟨"ab12cd34ef", false, "AA", ""⟩, "t1"⟩, none⟩
    let env : CommitEnv :=
      ⟨fun _ => .ok, fun _ _ => .ok "ab12cd34ef", fun _ _ => .ok, fun _ _ => .ok⟩
    (RegCall.sendCommand "box-1" "nfc_on" "ab12cd34ef")
      ∈ (handleClaimTagForScan st env).calls ∧
    st.status = some ⟨some ⟨"ab12cd34ef", false, "AA", ""⟩, "t1"⟩ ∧
    ("ab12cd34ef" : String) ≠ "" := by
  decide

/-- C6 amended: the `nfc_on` simulate-recognition command appears in the
commit trace exactly when the write step proceeded, the event was unknown
with a box selected and a media folder chosen, both `setTagMedia` and
`assignTag` succeeded, and the (doubly trimmed) working uid is non-empty —
regardless of whether the event carried a physical UID. -/
theorem c6_simulate_command_iff (st : CommitState) (env : CommitEnv) (b cm u : String) :
    RegCall.sendCommand b cm u ∈ (handleClaimTagForScan st env).calls ↔
      ((∃ pre nu, writeStep st env = WStep.proceed pre nu) ∧
       st.selectedId ≠ "" ∧ lastNfcUnknown st.status = true ∧ st.scanMediaPath ≠ "" ∧
       env.setTagMedia (jsTrim st.scanTagUid) st.scanMediaPath = .ok ∧
       env.assignTag (jsTrim st.scanTagUid) st.selectedId = .ok ∧
       b = st.selectedId ∧ cm = "nfc_on" ∧ u = jsTrim (jsTrim st.scanTagUid) ∧ u ≠ "") := by
  constructor
  · intro hmem
    rcases hws : writeStep st env with calls | ⟨calls, msg⟩ | ⟨pre, nu⟩
    · simp only [handleClaimTagForScan, hws] at hmem
      have h := writeStep_calls_shape st env
      rw [hws] at h
      simp only [WStep.callsOf] at h
      rcases h _ hmem with ⟨_, h2⟩ | ⟨_, _, h2⟩ <;> cases h2
    · simp only [handleClaimTagForScan, hws] at hmem
      have h := writeStep_calls_shape st env
      rw [hws] at h
      simp only [WStep.callsOf] at h
      rcases h _ hmem with ⟨_, h2⟩ | ⟨_, _, h2⟩ <;> cases h2
    · have hpre : ∀ c ∈ pre,
          (∃ u2, c = RegCall.markTagWritten u2) ∨ ∃ u2 l, c = RegCall.claimTag u2 l := by
        have h := writeStep_calls_shape st env
        rw [hws] at h
        simpa [WStep.callsOf] using h
      simp only [handleClaimTagForScan, hws] at hmem
      by_cases hsa : (st.selectedId != "" && lastNfcUnknown st.status
          && st.scanMediaPath != "") = true
      · have hsel : st.selectedId ≠ "" := by
          have h := hsa
          simp only [Bool.and_eq_true, bne_iff_ne] at h
          exact h.1.1
        have hknown : lastNfcUnknown st.status = true := by
          have h := hsa
          simp only [Bool.and_eq_true, bne_iff_ne] at h
          exact h.1.2
        have hmedia : st.scanMediaPath ≠ "" := by
          have h := hsa
          simp only [Bool.and_eq_true, bne_iff_ne] at h
          exact h.2
        rw [if_pos hsa] at hmem
        rcases hm : env.setTagMedia (jsTrim st.scanTagUid) st.scanMediaPath with _ | d <;>
          rw [hm] at hmem
        · rcases ha : env.assignTag (jsTrim st.scanTagUid) st.selectedId with _ | d <;>
            rw [ha] at hmem
          · rcases List.mem_append.mp hmem with h | h
            · rcases hpre _ h with ⟨_, h2⟩ | ⟨_, _, h2⟩ <;> cases h2
            · rcases List.mem_append.mp h with h2 | h2
              · rcases List.mem_append.mp h2 with h3 | h3
                · simp only [List.mem_cons, List.mem_singleton, List.not_mem_nil,
                    or_false] at h3
                  rcases h3 with h4 | h4 <;> cases h4
                · by_cases hfalse : activeKnownFalse (activeNfc st.status st.simulatedNfc)
                      = true
                  · rw [if_pos hfalse] at h3
                    unfold playerNfcOnCalls at h3
                    rw [if_neg hsel] at h3
                    by_cases hne : jsTrim (jsTrim st.scanTagUid) = ""
                    · rw [if_pos hne] at h3
                      cases h3
                    · rw [if_neg hne] at h3
                      rw [List.mem_singleton] at h3
                      cases h3
                      exact ⟨⟨pre, nu, rfl⟩, hsel, hknown, hmedia, rfl, rfl,
                        rfl, rfl, rfl, hne⟩
                  · rw [if_neg hfalse] at h3
                    cases h3
              · rcases refreshCalls_shape _ _ h2 with h3 | ⟨_, h3⟩ <;> cases h3
          · rcases List.mem_append.mp hmem with h | h
            · rcases hpre _ h with ⟨_, h2⟩ | ⟨_, _, h2⟩ <;> cases h2
            · simp only [List.mem_cons, List.mem_singleton, List.not_mem_nil,
                or_false] at h
              rcases h with h2 | h2 <;> cases h2
        · rcases List.mem_append.mp hmem with h | h
          · rcases hpre _ h with ⟨_, h2⟩ | ⟨_, _, h2⟩ <;> cases h2
          · rw [List.mem_singleton] at h
            cases h
      · simp only [Bool.not_eq_true] at hsa
        simp only [hsa, Bool.false_eq_true, if_false] at hmem
        rcases List.mem_append.mp hmem with h | h
        · rcases hpre _ h with ⟨_, h2⟩ | ⟨_, _, h2⟩ <;> cases h2
        · rcases refreshCalls_shape _ _ h with h2 | ⟨_, h2⟩ <;> cases h2
  · rintro ⟨⟨pre, nu, hws⟩, hsel, hknown, hmedia, hm, ha, hb, hcm, hu, hne⟩
    subst hb
    subst hcm
    subst hu
    have hsa : (st.selectedId != "" && lastNfcUnknown st.status && st.scanMediaPath != "")
        = true := by
      simp [Bool.and_eq_true, bne_iff_ne, hsel, hknown, hmedia]
    have hakf : activeKnownFalse (activeNfc st.status st.simulatedNfc) = true :=
      activeKnownFalse_of_unknown st.status st.simulatedNfc hknown
    simp only [handleClaimTagForScan, hws, hsa, if_true, hm, ha, hakf]
    unfold playerNfcOnCalls
    rw [if_neg hsel, if_neg hne]
    simp [List.mem_append]

/-- Witness for the amended C6 at a concrete commit whose assignment
succeeded: the simulate-recognition command is in the trace. -/
theorem c6_simulate_command_iff_witness :
    RegCall.sendCommand "box-1" "nfc_on" "zz99zz99zz"
      ∈ (handleClaimTagForScan
          ⟨"zz99zz99zz", "Story Time", "audiobooks/grimm", "box-1", [],
            some ⟨some ⟨"zz99zz99zz", false, "", ""⟩, "t"⟩, none⟩
          ⟨fun _ => .ok, fun _ _ => .ok "zz99zz99zz", fun _ _ => .ok,
            fun _ _ => .ok⟩).calls :=
  (c6_simulate_command_iff
    ⟨"zz99zz99zz", "Story Time", "audiobooks/grimm", "box-1", [],
      some ⟨some ⟨"zz99zz99zz", false, "", ""⟩, "t"⟩, none⟩
    ⟨fun _ => .ok, fun _ _ => .ok "zz99zz99zz", fun _ _ => .ok, fun _ _ => .ok⟩
    "box-1" "nfc_on" "zz99zz99zz").mpr
    ⟨⟨[RegCall.claimTag "zz99zz99zz" "Story Time"], some "zz99zz99zz", by decide⟩,
      by decide, by decide, by decide, by decide, by decide, by decide, by decide,
      by decide, by decide⟩

/-! ## Wizard session recovery (source lines 1734-1805)

The persist effect writes one payload `{ key, data }` to the single
storage slot whenever the active key is non-empty; the restore effect
reads it back at most once per active key and only when the stored key
equals the active key. -/

/-- The wizard-session fields persisted by the source (lines 1770-1786). -/
structure WizardData where
  scanTagUid : String
  scanTagLabel : String
  scanMediaPath : String
  tagUidMode : String
  tagStep : Nat
  tagStepOneDone : Bool
  tagStepTwoDone : Bool
  tagStepMax : Nat
  tagUidError : String
  lastHardwareUid : String × String
  simulatedNfc : Option ScanEvent
  dismissedNfcKey : String
deriving DecidableEq, Repr

/-- The stored payload `{ key, data }` of the single session-storage slot. -/
structure WizardPayload where
  key : String
  data : WizardData
deriving DecidableEq, Repr

/-- The persist effect (source lines 1767-1805): storage untouched when no
key is active, otherwise overwritten with the current data under the
active key. -/
def persistWizard (activeKey : String) (d : WizardData) (storage : Option WizardPayload) :
    Option WizardPayload :=
  if activeKey = "" then storage else some ⟨activeKey, d⟩

/-- The restore effect (source lines 1734-1765): returns the new component
data and the new value of `tagWizardRestoredRef`.  Restores only when a key
is active, was not already restored, storage holds a payload and the stored
key equals the active key; `lastHardwareUid` is taken only when non-empty
and `simulatedNfc` only when no polled event is present. -/
def restoreWizard (activeKey restoredRef : String) (storage : Option WizardPayload)
    (statusLastNfc : Option LastNfc) (cur : WizardData) : WizardData × String :=
  if activeKey = "" then (cur, restoredRef)
  else if restoredRef = activeKey then (cur, restoredRef)
  else
    match storage with
    | none => (cur, restoredRef)
    | some p =>
      if p.key ≠ activeKey then (cur, restoredRef)
      else
        ({ scanTagUid := p.data.scanTagUid
           scanTagLabel := p.data.scanTagLabel
           scanMediaPath := p.data.scanMediaPath
           tagUidMode := p.data.tagUidMode
           tagStep := p.data.tagStep
           tagStepOneDone := p.data.tagStepOneDone
           tagStepTwoDone := p.data.tagStepTwoDone
           tagStepMax := p.data.tagStepMax
           tagUidError := p.data.tagUidError
           lastHardwareUid :=
             if p.data.lastHardwareUid.1 ≠ "" ∨ p.data.lastHardwareUid.2 ≠ "" then
               p.data.lastHardwareUid else cur.lastHardwareUid
           simulatedNfc :=
             if statusLastNfc = none ∧ p.data.simulatedNfc ≠ none then
               p.data.simulatedNfc else cur.simulatedNfc
           dismissedNfcKey := p.data.dismissedNfcKey }, activeKey)

/-- C7: persisting a wizard session under active key `K` and restoring
while `K` is active (and not yet restored) reproduces exactly the persisted
working uid, label, media path, uid-mode, step, completion flags, highest
unlocked step and last validation error; a payload stored under a
different key is never restored. -/
theorem c7_session_round_trip (K ref : String) (d cur : WizardData)
    (st0 : Option WizardPayload) (lastNfc : Option LastNfc)
    (hK : K ≠ "") (href : ref ≠ K) :
    ((restoreWizard K ref (persistWizard K d st0) lastNfc cur).1.scanTagUid
        = d.scanTagUid ∧
     (restoreWizard K ref (persistWizard K d st0) lastNfc cur).1.scanTagLabel
        = d.scanTagLabel ∧
     (restoreWizard K ref (persistWizard K d st0) lastNfc cur).1.scanMediaPath
        = d.scanMediaPath ∧
     (restoreWizard K ref (persistWizard K d st0) lastNfc cur).1.tagUidMode
        = d.tagUidMode ∧
     (restoreWizard K ref (persistWizard K d st0) lastNfc cur).1.tagStep = d.tagStep ∧
     (restoreWizard K ref (persistWizard K d st0) lastNfc cur).1.tagStepOneDone
        = d.tagStepOneDone ∧
     (restoreWizard K ref (persistWizard K d st0) lastNfc cur).1.tagStepTwoDone
        = d.tagStepTwoDone ∧
     (restoreWizard K ref (persistWizard K d st0) lastNfc cur).1.tagStepMax
        = d.tagStepMax ∧
     (restoreWizard K ref (persistWizard K d st0) lastNfc cur).1.tagUidError
        = d.tagUidError) ∧
    (restoreWizard K ref (persistWizard K d st0) lastNfc cur).2 = K ∧
    (∀ K2, K2 ≠ K → restoreWizard K ref (some ⟨K2, d⟩) lastNfc cur = (cur, ref)) := by
  have hp : persistWizard K d st0 = some ⟨K, d⟩ := if_neg hK
  refine ⟨?_, ?_, ?_⟩
  · rw [hp]
    simp [restoreWizard, hK, href]
  · rw [hp]
    simp [restoreWizard, hK, href]
  · intro K2 hK2
    simp [restoreWizard, hK, href, hK2]

/-- Witness for C7 at a concrete session and key. -/
theorem c7_session_round_trip_witness :
    (restoreWizard "k1" ""
      (persistWizard "k1"
        ⟨"ab12cd34ef", "lbl", "audiobooks/m", "keep", 2, true, true, 2, "",
          ("", ""), none, ""⟩ none)
      none
      ⟨"", "", "", "keep", 0, false, false, 0, "", ("", ""), none, ""⟩).2 = "k1" :=
  (c7_session_round_trip "k1" ""
    ⟨"ab12cd34ef", "lbl", "audiobooks/m", "keep", 2, true, true, 2, "",
      ("", ""), none, ""⟩
    ⟨"", "", "", "keep", 0, false, false, 0, "", ("", ""), none, ""⟩
    none none (by decide) (by decide)).2.1

/-! ## Block matrix toggle (source lines 1646-1665) -/

/-- First-occurrence deduplication, the behavior of `new Set(array)`
iteration order in JS. -/
def jsSetDedupAux : List String → List String → List String
  | [], acc => acc.reverse
  | x :: xs, acc =>
    if x ∈ acc then jsSetDedupAux xs acc else jsSetDedupAux xs (x :: acc)

/-- `Array.from(new Set(l))`. -/
def jsSetDedup (l : List String) : List String := jsSetDedupAux l []

lemma mem_jsSetDedupAux (u : String) :
    ∀ (l acc : List String), u ∈ jsSetDedupAux l acc ↔ u ∈ l ∨ u ∈ acc := by
  intro l
  induction l with
  | nil => intro acc; simp [jsSetDedupAux]
  | cons x xs ih =>
    intro acc
    by_cases hx : x ∈ acc
    · rw [jsSetDedupAux, if_pos hx, ih]
      simp only [List.mem_cons]
      constructor
      · rintro (h | h)
        · exact Or.inl (Or.inr h)
        · exact Or.inr h
      · rintro ((rfl | h) | h)
        · exact Or.inr hx
        · exact Or.inl h
        · exact Or.inr h
    · rw [jsSetDedupAux, if_neg hx, ih]
      simp only [List.mem_cons]
      tauto

lemma mem_jsSetDedup (u : String) (l : List String) : u ∈ jsSetDedup l ↔ u ∈ l := by
  simp [jsSetDedup, mem_jsSetDedupAux]

/-- Collaborator response to `setTagBlock`. -/
inductive BlockResult where
  | ok
  | err (detail : String)
deriving DecidableEq, Repr

/-- `handleToggleTagBlock(boxId, uid, nextBlocked)` (source lines
1646-1665): on failure only an error toast; on success the per-box block
map is updated at `boxId` through a `Set` add/delete and a success toast is
shown.  Returns the new map and the toasts. -/
def handleToggleTagBlock (blockedByBox : String → List String) (boxId uid : String)
    (nextBlocked : Bool) (resp : BlockResult) :
    (String → List String) × List (String × String) :=
  match resp with
  | .err d => (blockedByBox, [("error", jsOr d "Tag-Sperre fehlgeschlagen.")])
  | .ok =>
    let current := jsSetDedup (blockedByBox boxId)
    let updated := if nextBlocked then
        (if uid ∈ current then current else current ++ [uid])
      else current.filter (fun x => x != uid)
    (fun b => if b = boxId then updated else blockedByBox b,
     [("success", if nextBlocked then "Tag gesperrt." else "Tag freigegeben.")])

/-- C8: the local block map is updated only after the collaborator
acknowledges success: a failed `setTagBlock` leaves the map exactly as it
was and reports only an error toast, while success yields the success
toast and toggles the given uid's membership for that box. -/
theorem c8_block_toggle_ack (m : String → List String) (boxId uid : String) (nb : Bool) :
    (∀ d, (handleToggleTagBlock m boxId uid nb (.err d)).1 = m ∧
      ("error", jsOr d "Tag-Sperre fehlgeschlagen.")
        ∈ (handleToggleTagBlock m boxId uid nb (.err d)).2 ∧
      ∀ t ∈ (handleToggleTagBlock m boxId uid nb (.err d)).2, t.1 = "error") ∧
    ((handleToggleTagBlock m boxId uid nb .ok).2
        = [("success", if nb then "Tag gesperrt." else "Tag freigegeben.")] ∧
      (uid ∈ (handleToggleTagBlock m boxId uid nb .ok).1 boxId ↔ nb = true)) := by
  constructor
  · intro d
    refine ⟨rfl, by simp [handleToggleTagBlock], ?_⟩
    intro t ht
    simp only [handleToggleTagBlock, List.mem_singleton] at ht
    rw [ht]
  · refine ⟨rfl, ?_⟩
    show uid ∈ (if boxId = boxId then _ else m boxId) ↔ nb = true
    rw [if_pos rfl]
    cases nb
    · simp [List.mem_filter]
    · simp only [if_true]
      by_cases hc : uid ∈ jsSetDedup (m boxId)
      · rw [if_pos hc]
        simp [hc]
      · rw [if_neg hc]
        simp

/-- Witness for C8 at a concrete map and failed call. -/
theorem c8_block_toggle_ack_witness :
    (handleToggleTagBlock (fun _ => ["a"]) "box-1" "u1" true (.err "boom")).1 = (fun _ => ["a"]) :=
  ((c8_block_toggle_ack (fun _ => ["a"]) "box-1" "u1" true).1 "boom").1

/-- C10: a successful block toggle changes at most the entry for `boxId`:
every other box's block list is untouched, and membership in `boxId`'s list
changes only for the given uid — added when blocking, removed when
unblocking. -/
theorem c10_block_toggle_frame (m : String → List String) (boxId uid : String) (nb : Bool) :
    (∀ b, b ≠ boxId → (handleToggleTagBlock m boxId uid nb .ok).1 b = m b) ∧
    (∀ u, u ∈ (handleToggleTagBlock m boxId uid nb .ok).1 boxId ↔
      (if nb then u ∈ m boxId ∨ u = uid else u ∈ m boxId ∧ u ≠ uid)) := by
  constructor
  · intro b hb
    show (if b = boxId then _ else m b) = m b
    rw [if_neg hb]
  · intro u
    show u ∈ (if boxId = boxId then _ else m boxId) ↔ _
    rw [if_pos rfl]
    cases nb
    · simp [List.mem_filter, mem_jsSetDedup, bne_iff_ne]
    · simp only [if_true]
      by_cases hc : uid ∈ jsSetDedup (m boxId)
      · rw [if_pos hc]
        rw [mem_jsSetDedup] at hc ⊢
        constructor
        · exact fun h => Or.inl h
        · rintro (h | rfl)
          · exact h
          · exact hc
      · rw [if_neg hc]
        simp [mem_jsSetDedup]

/-- Witness for C10: toggling box-1 leaves box-2's list unchanged. -/
theorem c10_block_toggle_frame_witness :
    (handleToggleTagBlock (fun _ => ["a"]) "box-1" "u1" true .ok).1 "box-2" = ["a"] :=
  (c10_block_toggle_frame (fun _ => ["a"]) "box-1" "u1" true).1 "box-2" (by decide)

end Klangkiste
